import Mathlib

/-!
Verification of the plugin subsystem of `flux-app-generator`
(package `internal/plugins`).

The Go code is shallowly embedded:

* `map[string]interface{}` values become association lists over an
  inductive `GoValue` of the scalar shapes the code actually stores
  (strings, booleans, the nil interface, and the two JSON-encoded
  record arrays used by the imageupdate plugin).
* methods returning `error` become `Except`-valued functions;
* file system writes become updates of a `String → Option String` map;
* Go `text/template` rendering of the action-free / `.field`-only
  templates used by `BasePlugin` is implemented by a small executable
  renderer; the two `range`/`if` templates of the imageupdate plugin
  are embedded as the string functions they denote (the template text
  is quoted in each doc comment, trim markers resolved).
-/

namespace FluxPlugins

/-- ImageRepository record (imageupdate.go): a single image repository
configuration with name, image, interval and an optional secretRef. -/
structure ImageRepository where
  Name : String
  Image : String
  Interval : String
  SecretRef : String
deriving DecidableEq, Repr

/-- ImagePolicy record (imageupdate.go): a single image policy
configuration; `Range` is used by semver policies, `Pattern`, `Extract`
and `Order` by numerical policies. -/
structure ImagePolicy where
  Name : String
  Repository : String
  PolicyType : String
  Range : String
  Pattern : String
  Extract : String
  Order : String
deriving DecidableEq, Repr

/-- Dynamic values stored in the Go `map[string]interface{}` maps of the
plugin package: strings, booleans and the nil interface value.  The two
extra constructors `repoList` / `policyList` denote a Go *string* whose
text is the `encoding/json` encoding of the given record list; the
Marshal/Unmarshal round trip on these flat string-field structs is the
identity, so the JSON text is represented by the list it denotes.
(A `repoList` is never compared for equality against a `str` by any
code path exercised here.) -/
inductive GoValue where
  | str (s : String)
  | boolean (b : Bool)
  | nullv
  | repoList (rs : List ImageRepository)
  | policyList (ps : List ImagePolicy)
deriving DecidableEq, Repr

/-- Association-list reading of a Go `map[string]interface{}` with
unique keys. -/
abbrev GoMap := List (String × GoValue)

/-- Go map lookup `values[name]`: `some v` when the key is present
(`v` may be `GoValue.nullv`, Go's nil interface), `none` when absent. -/
def lookupGo : GoMap → String → Option GoValue
  | [], _ => none
  | (k, v) :: rest, key => if k = key then some v else lookupGo rest key

/-- VariableType is a string in the source (`type VariableType string`). -/
abbrev VariableType := String

/-- VariableTypeText represents a text input variable. -/
def VariableTypeText : VariableType := "text"
/-- VariableTypeBool represents a boolean input variable. -/
def VariableTypeBool : VariableType := "bool"
/-- VariableTypeSelect represents a select dropdown input variable. -/
def VariableTypeSelect : VariableType := "select"
/-- VariableTypeCheckbox represents a checkbox input variable. -/
def VariableTypeCheckbox : VariableType := "checkbox"

/-- SelectOption embeds the source's `Option` struct (a label/value
pair for select-type variables); renamed because `Option` is taken by
Lean's core library. -/
structure SelectOption where
  Label : String
  Value : GoValue
deriving DecidableEq, Repr

/-- Variable (registry.go): one declared configurable input of a
plugin.  `Type'` embeds the source field `Type` (a Lean keyword). -/
structure Variable where
  Name : String
  Type' : VariableType
  Description : String
  Required : Bool
  Default : GoValue
  Options : List SelectOption
deriving DecidableEq, Repr

/-- ValidationError (registry.go): a plugin validation error carrying
the offending variable name and a message. -/
structure ValidationError where
  Variable : String
  Message : String
deriving DecidableEq, Repr

instance : DecidableEq (Except ValidationError Unit) := fun a b =>
  match a, b with
  | Except.ok x, Except.ok y =>
    if h : x = y then isTrue (by rw [h]) else isFalse (fun hc => h (by injection hc))
  | Except.ok _, Except.error _ => isFalse (fun hc => Except.noConfusion hc)
  | Except.error _, Except.ok _ => isFalse (fun hc => Except.noConfusion hc)
  | Except.error e, Except.error f =>
    if h : e = f then isTrue (by rw [h]) else isFalse (fun hc => h (by injection hc))

/-- validateVariableType (registry.go, lines 469-502): validates a
single non-nil value against the variable's type.  Bool/checkbox
variables need a Go `bool`; text variables need a Go `string` (which a
JSON-text value also is); select variables need a value equal to some
option's `Value` (labels are never consulted); any other type string
falls through the `switch` with no check. -/
def validateVariableType (vbl : Variable) (value : GoValue) :
    Except ValidationError Unit :=
  if vbl.Type' = VariableTypeBool ∨ vbl.Type' = VariableTypeCheckbox then
    match value with
    | GoValue.boolean _ => Except.ok ()
    | _ => Except.error ⟨vbl.Name, "value must be a boolean"⟩
  else if vbl.Type' = VariableTypeText then
    match value with
    | GoValue.str _ => Except.ok ()
    | GoValue.repoList _ => Except.ok ()
    | GoValue.policyList _ => Except.ok ()
    | _ => Except.error ⟨vbl.Name, "value must be a string"⟩
  else if vbl.Type' = VariableTypeSelect then
    if vbl.Options.any (fun o => o.Value = value) then
      Except.ok ()
    else
      Except.error ⟨vbl.Name, "value is not one of the allowed options"⟩
  else
    Except.ok ()

/-- Loop body of BasePlugin.Validate (registry.go, lines 448-463) for
one declared variable: a required variable whose key is absent fails
with "required variable is missing"; a present, non-nil value is
type-checked; a present nil value and an absent optional variable are
accepted without any check. -/
def checkVar (values : GoMap) (vbl : Variable) : Except ValidationError Unit :=
  if vbl.Required ∧ (lookupGo values vbl.Name).isNone then
    Except.error ⟨vbl.Name, "required variable is missing"⟩
  else
    match lookupGo values vbl.Name with
    | some value =>
        if value ≠ GoValue.nullv then validateVariableType vbl value
        else Except.ok ()
    | none => Except.ok ()

/-- Iteration of BasePlugin.Validate over the declared variables,
returning the first error encountered (the Go loop returns as soon as
one variable fails). -/
def validateVars (values : GoMap) : List Variable → Except ValidationError Unit
  | [] => Except.ok ()
  | v :: rest =>
    match checkVar values v with
    | Except.error e => Except.error e
    | Except.ok _ => validateVars values rest

/-- BasePlugin (registry.go): the generic template-driven plugin. -/
structure BasePlugin where
  name : String
  description : String
  variables' : List Variable
  template : String
  filePath : String
deriving DecidableEq, Repr

/-- Validate (registry.go, lines 447-466): basic validation of the
provided values against the plugin's declared variables. -/
def BasePlugin.Validate (p : BasePlugin) (values : GoMap) :
    Except ValidationError Unit :=
  validateVars values p.variables'

/-- First variable of the C1 counterexample schema: optional text
variable whose submitted value will be a boolean (hence invalid). -/
def c1varOther : Variable :=
  ⟨"other", VariableTypeText, "", false, GoValue.nullv, []⟩

/-- Second variable of the C1 counterexample schema: required, and its
key will be absent from the submitted values. -/
def c1varV : Variable :=
  ⟨"v", VariableTypeText, "", true, GoValue.nullv, []⟩

/-- Plugin used by the C1 counterexample and witness. -/
def c1plugin : BasePlugin :=
  ⟨"c1", "", [c1varOther, c1varV], "", ""⟩

/-- Values used by the C1 counterexample: the required variable "v" is
absent, and the earlier variable "other" holds an invalid (boolean)
value. -/
def c1values : GoMap := [("other", GoValue.boolean true)]

/-- Select variable (with the ExternalSecret store options) used by the
C2 witness. -/
def c2var : Variable :=
  ⟨"secret_store_type", VariableTypeSelect, "", true, GoValue.nullv,
    [⟨"Cluster Secret Store", GoValue.str "ClusterSecretStore"⟩,
     ⟨"Secret Store", GoValue.str "SecretStore"⟩]⟩

/-- Required select variable bound to nil in the C10 witness. -/
def c10var : Variable :=
  ⟨"choice", VariableTypeSelect, "", true, GoValue.nullv,
    [⟨"A", GoValue.str "a"⟩]⟩

/-- Plugin used by the C10 witness. -/
def c10plugin : BasePlugin := ⟨"c10", "", [c10var], "", ""⟩

/-- Values used by the C10 witness: the required select variable is
present but nil. -/
def c10values : GoMap := [("choice", GoValue.nullv)]

/-- Lookup in the registry's name-keyed plugin map. -/
def lookupPlugin : List (String × BasePlugin) → String → Option BasePlugin
  | [], _ => none
  | (k, v) :: rest, key => if k = key then some v else lookupPlugin rest key

/-- Registry (registry source file): manages all available plugins as a
map from plugin name to plugin.  Registered plugins are `BasePlugin`
records (every built-in is a struct embedding `BasePlugin`, and the
registry only ever consults `Name()`); a nil interface argument to
Register is modelled by `none`. -/
structure Registry where
  plugins : List (String × BasePlugin)
deriving DecidableEq, Repr

/-- Register (registry source, lines 451-467): rejects a nil plugin, an
empty name, and a duplicate name — in each case before touching the
map, so the failing cases return the registry unchanged; otherwise the
plugin is inserted under its name. -/
def Registry.Register (r : Registry) (plugin : Option BasePlugin) :
    Except String Unit × Registry :=
  match plugin with
  | none => (Except.error "cannot register nil plugin", r)
  | some p =>
    if p.name = "" then
      (Except.error "plugin name cannot be empty", r)
    else if (lookupPlugin r.plugins p.name).isSome then
      (Except.error ("plugin with name \x27" ++ p.name ++ "\x27 is already registered"), r)
    else
      (Except.ok (), ⟨r.plugins ++ [(p.name, p)]⟩)

/-- Get (registry source, lines 470-473): retrieves a plugin by name;
the Go `(plugin, exists)` pair is `some`/`none` here. -/
def Registry.Get (r : Registry) (name : String) : Option BasePlugin :=
  lookupPlugin r.plugins name

/-- Exists (registry source, lines 499-502): whether a plugin with the
given name is registered. -/
def Registry.Exists (r : Registry) (name : String) : Bool :=
  (lookupPlugin r.plugins name).isSome

/-- Count (registry source, lines 494-496): number of registered
plugins. -/
def Registry.Count (r : Registry) : Nat :=
  r.plugins.length

/-- NewExternalSecretPlugin (externalsecret.go, lines 9-92): the
built-in ExternalSecret plugin — its six declared variables, YAML body
template and file-path template, exactly as in the source (braces and
apostrophes written as \x7b \x7d \x27 escapes). -/
def NewExternalSecretPlugin : BasePlugin :=
  { name := "externalsecret"
    description := "Generates ExternalSecret resources for managing secrets from external secret stores"
    variables' :=
      [ ⟨"name", VariableTypeText, "Name for the ExternalSecret resource",
          true, GoValue.nullv, []⟩,
        ⟨"secret_store_type", VariableTypeSelect, "Type of secret store to reference",
          true, GoValue.str "ClusterSecretStore",
          [⟨"Cluster Secret Store", GoValue.str "ClusterSecretStore"⟩,
           ⟨"Secret Store", GoValue.str "SecretStore"⟩]⟩,
        ⟨"secret_store_name", VariableTypeText, "Name of the secret store resource",
          true, GoValue.nullv, []⟩,
        ⟨"secret_key", VariableTypeText, "Key name in the external secret store",
          true, GoValue.nullv, []⟩,
        ⟨"target_secret_name", VariableTypeText, "Name of the Kubernetes secret to create",
          true, GoValue.nullv, []⟩,
        ⟨"refresh_interval", VariableTypeSelect, "How often to refresh the secret",
          false, GoValue.str "60m",
          [⟨"15 minutes", GoValue.str "15m"⟩,
           ⟨"30 minutes", GoValue.str "30m"⟩,
           ⟨"1 hour", GoValue.str "60m"⟩,
           ⟨"2 hours", GoValue.str "120m"⟩,
           ⟨"6 hours", GoValue.str "6h"⟩,
           ⟨"12 hours", GoValue.str "12h"⟩,
           ⟨"24 hours", GoValue.str "24h"⟩]⟩ ]
    template := "apiVersion: external-secrets.io/v1beta1\nkind: ExternalSecret\nmetadata:\n  name: \x7b\x7b.name\x7d\x7d\n  namespace: \x7b\x7b.Namespace\x7d\x7d\nspec:\n  secretStoreRef:\n    kind: \x7b\x7b.secret_store_type\x7d\x7d\n    name: \x7b\x7b.secret_store_name\x7d\x7d\n  dataFrom:\n    - extract:\n        key: \x7b\x7b.secret_key\x7d\x7d\n  refreshInterval: \x7b\x7b.refresh_interval\x7d\x7d\n  target:\n    creationPolicy: Owner\n    name: \x7b\x7b.target_secret_name\x7d\x7d"
    filePath := "dependencies/external-secret-\x7b\x7b.target_secret_name\x7d\x7d.yaml" }

/-- NewRegistry (registry source, lines 431-448): builds the registry
and calls registerBuiltinPlugins, which registers only the
ExternalSecret plugin (the Go panic on a failed built-in registration
is unreachable on the fresh empty map). -/
def NewRegistry : Registry :=
  (Registry.Register ⟨[]⟩ (some NewExternalSecretPlugin)).2

/-- Empty-name plugin used by the C4 witness. -/
def c4emptyPlugin : BasePlugin := ⟨"", "", [], "", ""⟩

/-- Left brace character, written via its code point so that the
template literals below can stay close to the Go source text. -/
def lbrace : Char := Char.ofNat 123

/-- Right brace character. -/
def rbrace : Char := Char.ofNat 125

/-- JSON text of one ImageRepository as produced by encoding/json for
the struct tags name/image/interval/secretRef (omitempty on secretRef;
string escaping is not modelled — the fields used here contain no
characters needing escapes). -/
def jsonEncodeRepo (r : ImageRepository) : String :=
  "\x7b\"name\":\"" ++ r.Name ++ "\",\"image\":\"" ++ r.Image ++
    "\",\"interval\":\"" ++ r.Interval ++ "\"" ++
    (if r.SecretRef ≠ "" then ",\"secretRef\":\"" ++ r.SecretRef ++ "\"" else "") ++
    "\x7d"

/-- JSON text of an ImageRepository array. -/
def jsonEncodeRepos (rs : List ImageRepository) : String :=
  "[" ++ String.intercalate "," (rs.map jsonEncodeRepo) ++ "]"

/-- JSON text of one ImagePolicy (omitempty on range, pattern, extract
and order). -/
def jsonEncodePolicy (p : ImagePolicy) : String :=
  "\x7b\"name\":\"" ++ p.Name ++ "\",\"repository\":\"" ++ p.Repository ++
    "\",\"policyType\":\"" ++ p.PolicyType ++ "\"" ++
    (if p.Range ≠ "" then ",\"range\":\"" ++ p.Range ++ "\"" else "") ++
    (if p.Pattern ≠ "" then ",\"pattern\":\"" ++ p.Pattern ++ "\"" else "") ++
    (if p.Extract ≠ "" then ",\"extract\":\"" ++ p.Extract ++ "\"" else "") ++
    (if p.Order ≠ "" then ",\"order\":\"" ++ p.Order ++ "\"" else "") ++
    "\x7d"

/-- JSON text of an ImagePolicy array. -/
def jsonEncodePolicies (ps : List ImagePolicy) : String :=
  "[" ++ String.intercalate "," (ps.map jsonEncodePolicy) ++ "]"

/-- Go text/template printing of a substituted field value: strings
print verbatim (a JSON-text value prints its JSON text), booleans as
true/false, and a missing key or nil interface value prints the
text/template placeholder "<no value>". -/
def renderValue : Option GoValue → String
  | some (GoValue.str s) => s
  | some (GoValue.boolean b) => if b then "true" else "false"
  | some (GoValue.repoList rs) => jsonEncodeRepos rs
  | some (GoValue.policyList ps) => jsonEncodePolicies ps
  | _ => "<no value>"

/-- Scans an action's field name after the opening braces and the dot,
up to the closing braces, returning the name and the remaining
template text. -/
def takeField : List Char → List Char → Option (String × List Char)
  | [], _ => none
  | c :: rest, acc =>
    if c = rbrace then
      match rest with
      | c2 :: rest2 => if c2 = rbrace then some (⟨acc.reverse⟩, rest2) else none
      | [] => none
    else takeField rest (c :: acc)

/-- Parses one template action: only the `.field` form used by the
BasePlugin templates of this repository is supported; any other action
syntax makes rendering fail. -/
def takeAction (cs : List Char) : Option (String × List Char) :=
  match cs with
  | c :: rest => if c = '.' then takeField rest [] else none
  | [] => none

/-- Fuel-indexed renderer for Go text/template strings made of literal
text and `.field` actions (the only template forms the BasePlugin path
of this repository uses).  A lone opening brace is literal text, as in
text/template.  Fuel `length + 1` is always sufficient since every
step consumes at least one character. -/
def renderTmplAux (data : GoMap) : Nat → List Char → Option (List Char)
  | _, [] => some []
  | 0, _ :: _ => none
  | fuel + 1, c :: rest =>
    if c = lbrace then
      match rest with
      | c2 :: rest2 =>
        if c2 = lbrace then
          match takeAction rest2 with
          | none => none
          | some (field, rest3) =>
            match renderTmplAux data fuel rest3 with
            | none => none
            | some out => some ((renderValue (lookupGo data field)).data ++ out)
        else
          match renderTmplAux data fuel (c2 :: rest2) with
          | none => none
          | some out => some (c :: out)
      | [] => some [c]
    else
      match renderTmplAux data fuel rest with
      | none => none
      | some out => some (c :: out)

/-- Parse-and-execute of a template string against the data map
(text/template Parse + Execute for the `.field`-only fragment). -/
def renderGoTemplate (t : String) (data : GoMap) : Option String :=
  match renderTmplAux data (t.data.length + 1) t.data with
  | none => none
  | some out => some ⟨out⟩

/-- File system state: a map from path to file content. -/
def FS := String → Option String

/-- Modelled os.Create plus write: creates or truncates the file at
`path`, leaving every other path unchanged. -/
def setFile (fs : FS) (path content : String) : FS :=
  fun q => if q = path then some content else fs q

/-- File system with no files. -/
def emptyFS : FS := fun _ => none

/-- filepath.Join for the shapes used in this package (a directory
joined with a relative file name; no path cleaning is needed for these
inputs). -/
def joinPath (dir file : String) : String := dir ++ "/" ++ file

/-- Template context of BasePlugin.GenerateFile (registry.go, lines
507-511): a copy of the values plus the injected `Namespace` key
(prepending shadows any existing key on lookup, exactly as the Go map
assignment overwrites it). -/
def templateData (values : GoMap) (ns : String) : GoMap :=
  ("Namespace", GoValue.str ns) :: values

/-- GenerateFile (registry.go, lines 505-588): renders the file-path
template, joins the result under `appDir`, renders the YAML body
template into the file, and appends one newline unconditionally
("Ensure file ends with a newline", line 578).  MkdirAll has no effect
on the file map; a failing template yields `none` (the partial write a
mid-execution failure could leave behind is not modelled — no claim
exercises it). -/
def BasePlugin.GenerateFile (p : BasePlugin) (values : GoMap)
    (appDir ns : String) (fs : FS) : Option FS :=
  match renderGoTemplate p.filePath (templateData values ns) with
  | none => none
  | some rel =>
    match renderGoTemplate p.template (templateData values ns) with
    | none => none
    | some out => some (setFile fs (joinPath appDir rel) (out ++ "\n"))

/-- Property that a string ends with exactly one trailing newline. -/
def endsWithExactlyOneNL (s : String) : Prop :=
  s.data.getLast? = some '\n' ∧ s.data.dropLast.getLast? ≠ some '\n'

instance (s : String) : Decidable (endsWithExactlyOneNL s) := by
  unfold endsWithExactlyOneNL
  infer_instance

/-- Substring test: whether `pat` occurs contiguously in the char
list. -/
def containsB (pat : List Char) : List Char → Bool
  | [] => pat.isEmpty
  | c :: rest => pat.isPrefixOf (c :: rest) || containsB pat rest

/-- Substring occurrence as a decidable proposition on strings. -/
def occursStr (pat s : String) : Prop := containsB pat.data s.data = true

instance (pat s : String) : Decidable (occursStr pat s) := by
  unfold occursStr
  infer_instance

/-- Plugin for the C3 counterexample: an action-free template that
renders verbatim and already ends with a newline (BasePlugin templates
are arbitrary strings; the registry tests build such ad hoc
plugins). -/
def c3plugin : BasePlugin :=
  ⟨"test-plugin", "Test plugin", [], "test: value\n", "test.yaml"⟩

/-- Content the C3 counterexample run writes to out/test.yaml. -/
def c3written : Option String :=
  match BasePlugin.GenerateFile c3plugin [] "out" "default" emptyFS with
  | some fs => fs (joinPath "out" "test.yaml")
  | none => none

/-- Plugin for the C3 witness: the same template without a trailing
newline. -/
def c3okPlugin : BasePlugin :=
  ⟨"test-plugin", "Test plugin", [], "test: value", "test.yaml"⟩

/-- Values of the C7 end-to-end scenario. -/
def c7values : GoMap :=
  [("name", GoValue.str "api-secret"),
   ("secret_store_type", GoValue.str "ClusterSecretStore"),
   ("secret_store_name", GoValue.str "vault-backend"),
   ("secret_key", GoValue.str "datadog/api-key"),
   ("target_secret_name", GoValue.str "datadog-secret"),
   ("refresh_interval", GoValue.str "60m")]

/-- Exact file content GenerateFile writes in the C7 scenario
(rendered ExternalSecret template plus the appended newline). -/
def c7content : String :=
  "apiVersion: external-secrets.io/v1beta1\nkind: ExternalSecret\nmetadata:\n  name: api-secret\n  namespace: monitoring\nspec:\n  secretStoreRef:\n    kind: ClusterSecretStore\n    name: vault-backend\n  dataFrom:\n    - extract:\n        key: datadog/api-key\n  refreshInterval: 60m\n  target:\n    creationPolicy: Owner\n    name: datadog-secret\n"

/-- PolicyTypeSemver (imageupdate.go, line 15). -/
def PolicyTypeSemver : String := "semver"

/-- PolicyTypeTimestamp (imageupdate.go, line 17). -/
def PolicyTypeTimestamp : String := "timestamp"

/-- PolicyTypeNumerical (imageupdate.go, line 19). -/
def PolicyTypeNumerical : String := "numerical"

/-- Declared variable schema of the imageupdate plugin
(NewImageUpdatePlugin, imageupdate.go lines 54-61): only
automation_name. -/
def imageUpdateVariables : List Variable :=
  [⟨"automation_name", VariableTypeText,
    "Name for the ImageUpdateAutomation resource", true, GoValue.nullv, []⟩]

/-- BasePlugin embedded in NewImageUpdatePlugin (imageupdate.go lines
66-74); its template is empty and GenerateFile/Validate are
overridden. -/
def NewImageUpdatePluginBase : BasePlugin :=
  ⟨"imageupdate",
   "Generates Flux image update automation resources for automatic container image updates",
   imageUpdateVariables, "", "image-update-automation.yaml"⟩

/-- validateSingleRepository (imageupdate.go lines 154-174): name,
image and interval are required, checked in that order with
index-qualified messages. -/
def validateSingleRepository (repo : ImageRepository) (index : Nat) :
    Except ValidationError Unit :=
  if repo.Name = "" then
    Except.error ⟨"image_repositories", "repository " ++ toString index ++ ": name is required"⟩
  else if repo.Image = "" then
    Except.error ⟨"image_repositories", "repository " ++ toString index ++ ": image is required"⟩
  else if repo.Interval = "" then
    Except.error ⟨"image_repositories", "repository " ++ toString index ++ ": interval is required"⟩
  else
    Except.ok ()

/-- Indexed loop of validateImageRepositories (imageupdate.go lines
105-109) over the decoded records. -/
def validateReposFrom (i : Nat) : List ImageRepository → Except ValidationError Unit
  | [] => Except.ok ()
  | r :: rest =>
    match validateSingleRepository r i with
    | Except.error e => Except.error e
    | Except.ok _ => validateReposFrom (i + 1) rest

/-- validateSemverPolicy (imageupdate.go lines 212-220). -/
def validateSemverPolicy (p : ImagePolicy) (index : Nat) :
    Except ValidationError Unit :=
  if p.Range = "" then
    Except.error ⟨"image_policies", "policy " ++ toString index ++ ": range is required for semver policy"⟩
  else
    Except.ok ()

/-- validateNumericalPolicy (imageupdate.go lines 223-243). -/
def validateNumericalPolicy (p : ImagePolicy) (index : Nat) :
    Except ValidationError Unit :=
  if p.Pattern = "" then
    Except.error ⟨"image_policies", "policy " ++ toString index ++ ": pattern is required for numerical policy"⟩
  else if p.Extract = "" then
    Except.error ⟨"image_policies", "policy " ++ toString index ++ ": extract is required for numerical policy"⟩
  else if p.Order = "" then
    Except.error ⟨"image_policies", "policy " ++ toString index ++ ": order is required for numerical policy"⟩
  else
    Except.ok ()

/-- validatePolicyTypeSpecificFields (imageupdate.go lines 201-209). -/
def validatePolicyTypeSpecificFields (p : ImagePolicy) (index : Nat) :
    Except ValidationError Unit :=
  if p.PolicyType = PolicyTypeSemver then validateSemverPolicy p index
  else if p.PolicyType = PolicyTypeNumerical then validateNumericalPolicy p index
  else Except.ok ()

/-- validateSinglePolicy (imageupdate.go lines 177-198). -/
def validateSinglePolicy (p : ImagePolicy) (index : Nat) :
    Except ValidationError Unit :=
  if p.Name = "" then
    Except.error ⟨"image_policies", "policy " ++ toString index ++ ": name is required"⟩
  else if p.Repository = "" then
    Except.error ⟨"image_policies", "policy " ++ toString index ++ ": repository is required"⟩
  else if p.PolicyType = "" then
    Except.error ⟨"image_policies", "policy " ++ toString index ++ ": policyType is required"⟩
  else
    validatePolicyTypeSpecificFields p index

/-- Indexed loop of validateImagePolicies (imageupdate.go lines
122-126) over the decoded records. -/
def validatePoliciesFrom (i : Nat) : List ImagePolicy → Except ValidationError Unit
  | [] => Except.ok ()
  | p :: rest =>
    match validateSinglePolicy p i with
    | Except.error e => Except.error e
    | Except.ok _ => validatePoliciesFrom (i + 1) rest

/-- Reading of the image_repositories value shared by Validate and
GenerateFile: an absent key or a non-string value is skipped by the
type assertion (empty record list), a JSON-text value decodes to its
record list, and a plain string is modelled as a JSON parse failure
(raw JSON text other than the canonical encodings is not modelled; no
claim feeds one). -/
def decodeRepoField : Option GoValue → Option (List ImageRepository)
  | none => some []
  | some (GoValue.repoList rs) => some rs
  | some (GoValue.str _) => none
  | some _ => some []

/-- Reading of the image_policies value (same conventions as
decodeRepoField). -/
def decodePolicyField : Option GoValue → Option (List ImagePolicy)
  | none => some []
  | some (GoValue.policyList ps) => some ps
  | some (GoValue.str _) => none
  | some _ => some []

/-- validateImageRepositories (imageupdate.go lines 98-112 with the
shared validateJSONField logic of lines 132-151): nothing to check
when the field is absent or not a string; a parse failure is a
ValidationError naming the field; a decoded list is checked
per-record. -/
def ImageUpdatePlugin.validateImageRepositories (values : GoMap) :
    Except ValidationError Unit :=
  match decodeRepoField (lookupGo values "image_repositories") with
  | none => Except.error ⟨"image_repositories", "invalid JSON format"⟩
  | some rs => validateReposFrom 0 rs

/-- validateImagePolicies (imageupdate.go lines 115-129). -/
def ImageUpdatePlugin.validateImagePolicies (values : GoMap) :
    Except ValidationError Unit :=
  match decodePolicyField (lookupGo values "image_policies") with
  | none => Except.error ⟨"image_policies", "invalid JSON format"⟩
  | some ps => validatePoliciesFrom 0 ps

/-- Validate of the imageupdate plugin (imageupdate.go lines 78-95):
base validation first, then the two JSON array fields. -/
def ImageUpdatePlugin.Validate (values : GoMap) : Except ValidationError Unit :=
  match validateVars values imageUpdateVariables with
  | Except.error e => Except.error e
  | Except.ok _ =>
    match ImageUpdatePlugin.validateImageRepositories values with
    | Except.error e => Except.error e
    | Except.ok _ => ImageUpdatePlugin.validateImagePolicies values

/-- Per-iteration output of the image-repository.yaml template
(imageupdate.go lines 551-562).  The template is

    {{- range .ImageRepositories }}
    ---
    apiVersion: image.toolkit.fluxcd.io/v1beta2
    kind: ImageRepository
    metadata:
      name: {{.Name}}
    spec:
      image: {{.Image}}
      interval: {{.Interval}}{{- if .SecretRef }}
      secretRef:
        name: {{.SecretRef}}{{- end }}
    {{- end }}

so each iteration keeps the newline after the range tag, renders the
secretRef block exactly when SecretRef is a non-empty string (Go
template truthiness), and the newline before the closing end is
trimmed by its leading trim marker. -/
def renderRepoBlock (r : ImageRepository) : String :=
  "\n---\napiVersion: image.toolkit.fluxcd.io/v1beta2\nkind: ImageRepository\nmetadata:\n  name: " ++ r.Name ++
    "\nspec:\n  image: " ++ r.Image ++
    "\n  interval: " ++ r.Interval ++
    (if r.SecretRef ≠ "" then "\n  secretRef:\n    name: " ++ r.SecretRef else "")

/-- Rendered image-repository.yaml stream: the range loop appends one
block per record. -/
def renderImageRepositoryYaml : List ImageRepository → String
  | [] => ""
  | r :: rest => renderRepoBlock r ++ renderImageRepositoryYaml rest

/-- Per-iteration output of the image-policy.yaml template
(imageupdate.go lines 563-581).  The template branches on the policy
type:

    {{- range .ImagePolicies }}
    ---
    apiVersion: image.toolkit.fluxcd.io/v1beta2
    kind: ImagePolicy
    metadata:
      name: {{.Name}}
    spec:
      imageRepositoryRef:
        name: {{.Repository}}{{- if eq .PolicyType "semver" }}
      policy:
        semver:
          range: '{{.Range}}'{{- else if eq .PolicyType "numerical" }}
      filterTags:
        pattern: '{{.Pattern}}'
        extract: '{{.Extract}}'
      policy:
        numerical:
          order: {{.Order}}{{- end }}
    {{- end }}

so a semver policy renders the semver block and no filterTags section,
a numerical policy renders filterTags plus the numerical block and no
semver section, and any other policy type renders neither. -/
def renderPolicyBlock (p : ImagePolicy) : String :=
  "\n---\napiVersion: image.toolkit.fluxcd.io/v1beta2\nkind: ImagePolicy\nmetadata:\n  name: " ++ p.Name ++
    "\nspec:\n  imageRepositoryRef:\n    name: " ++ p.Repository ++
    (if p.PolicyType = "semver" then
      "\n  policy:\n    semver:\n      range: \x27" ++ p.Range ++ "\x27"
     else if p.PolicyType = "numerical" then
      "\n  filterTags:\n    pattern: \x27" ++ p.Pattern ++ "\x27\n    extract: \x27" ++ p.Extract ++
        "\x27\n  policy:\n    numerical:\n      order: " ++ p.Order
     else "")

/-- Rendered image-policy.yaml stream. -/
def renderImagePolicyYaml : List ImagePolicy → String
  | [] => ""
  | p :: rest => renderPolicyBlock p ++ renderImagePolicyYaml rest

/-- Rendered image-update-automation.yaml (imageupdate.go lines
582-604): a single manifest of plain `.field` substitutions against
the shared template data, printed with the text/template value
rules. -/
def renderAutomationYaml (td : GoMap) : String :=
  "---\napiVersion: image.toolkit.fluxcd.io/v1beta1\nkind: ImageUpdateAutomation\nmetadata:\n  name: " ++
    renderValue (lookupGo td "automation_name") ++
    "\n  namespace: " ++ renderValue (lookupGo td "Namespace") ++
    "\nspec:\n  interval: " ++ renderValue (lookupGo td "automation_interval") ++
    "\n  sourceRef:\n    kind: GitRepository\n    name: " ++ renderValue (lookupGo td "git_repository_name") ++
    "\n    namespace: " ++ renderValue (lookupGo td "git_repository_namespace") ++
    "\n  git:\n    commit:\n      author:\n        email: " ++ renderValue (lookupGo td "author_email") ++
    "\n        name: " ++ renderValue (lookupGo td "author_name") ++
    "\n      messageTemplate: \"" ++ renderValue (lookupGo td "commit_message_template") ++
    "\"\n    push:\n      branch: " ++ renderValue (lookupGo td "git_branch") ++
    "\n  update:\n    path: " ++ renderValue (lookupGo td "update_path") ++
    "\n    strategy: " ++ renderValue (lookupGo td "update_strategy")

/-- GenerateFile of the imageupdate plugin (imageupdate.go lines
519-615): decodes the two JSON array values (a malformed JSON string
aborts; an absent or non-string value yields an empty list), then
writes the three files into the app directory; each file is produced
by generateSingleFile (lines 618-644), which appends one newline after
the rendered template output.  The Go map iteration order over the
three files is immaterial here because the three paths are
distinct. -/
def ImageUpdatePlugin.GenerateFile (values : GoMap) (appDir ns : String)
    (fs : FS) : Option FS :=
  match decodeRepoField (lookupGo values "image_repositories") with
  | none => none
  | some repos =>
    match decodePolicyField (lookupGo values "image_policies") with
    | none => none
    | some policies =>
      some (setFile (setFile (setFile fs
        (joinPath appDir "image-repository.yaml")
        (renderImageRepositoryYaml repos ++ "\n"))
        (joinPath appDir "image-policy.yaml")
        (renderImagePolicyYaml policies ++ "\n"))
        (joinPath appDir "image-update-automation.yaml")
        (renderAutomationYaml (templateData values ns) ++ "\n"))

/-- Content of the file at `path` after a generation run (none when
generation failed or the path was never written and absent before). -/
def fileWritten (gen : Option FS) (path : String) : Option String :=
  match gen with
  | some fs => fs path
  | none => none

/-- Splits a character list at newline characters: the lines of a
file, as newline-free segments (one more segment than there are
newline characters). -/
def splitNL : List Char → List (List Char)
  | [] => [[]]
  | c :: cs =>
    if c = '\n' then [] :: splitNL cs
    else
      match splitNL cs with
      | [] => [[c]]
      | l :: ls => (c :: l) :: ls

/-- Inverse of splitNL on newline-free segments: interleaves the
segments with newline characters. -/
def unlines : List (List Char) → List Char
  | [] => []
  | [l] => l
  | l :: ls => l ++ '\n' :: unlines ls

/-- A string contains `l` as one of its full lines. -/
def hasLine (s l : String) : Prop := l.data ∈ splitNL s.data

instance (s l : String) : Decidable (hasLine s l) := by
  unfold hasLine
  infer_instance

/-- Lines of one rendered ImageRepository block, after its leading
empty line (for newline-free record fields). -/
def repoBlockLines (r : ImageRepository) : List (List Char) :=
  ["---".data, "apiVersion: image.toolkit.fluxcd.io/v1beta2".data,
   "kind: ImageRepository".data, "metadata:".data,
   "  name: ".data ++ r.Name.data, "spec:".data,
   "  image: ".data ++ r.Image.data,
   "  interval: ".data ++ r.Interval.data] ++
  (if r.SecretRef ≠ "" then
    ["  secretRef:".data, "    name: ".data ++ r.SecretRef.data]
   else [])

/-- Lines of one rendered ImagePolicy block, after its leading empty
line (for newline-free record fields). -/
def policyBlockLines (p : ImagePolicy) : List (List Char) :=
  ["---".data, "apiVersion: image.toolkit.fluxcd.io/v1beta2".data,
   "kind: ImagePolicy".data, "metadata:".data,
   "  name: ".data ++ p.Name.data, "spec:".data,
   "  imageRepositoryRef:".data,
   "    name: ".data ++ p.Repository.data] ++
  (if p.PolicyType = "semver" then
    ["  policy:".data, "    semver:".data,
     "      range: \x27".data ++ (p.Range.data ++ "\x27".data)]
   else if p.PolicyType = "numerical" then
    ["  filterTags:".data,
     "    pattern: \x27".data ++ (p.Pattern.data ++ "\x27".data),
     "    extract: \x27".data ++ (p.Extract.data ++ "\x27".data),
     "  policy:".data, "    numerical:".data,
     "      order: ".data ++ p.Order.data]
   else [])

/-- Values map of the C5 round trip: the serialized repository list,
an empty policy list, and the required automation name. -/
def c5values (repos : List ImageRepository) (an : String) : GoMap :=
  [("automation_name", GoValue.str an),
   ("image_repositories", GoValue.repoList repos),
   ("image_policies", GoValue.policyList [])]

/-- Concrete repository list of the C5 witness: one public and one
private (secretRef) repository. -/
def c5demoRepos : List ImageRepository :=
  [⟨"app", "nginx", "6h", ""⟩, ⟨"priv", "registry.io/app", "12h", "regcred"⟩]

/-- Concrete semver policy of the C6 witness. -/
def c6semverPolicy : ImagePolicy :=
  ⟨"app-policy", "app", "semver", "*", "", "", ""⟩

/-- Concrete numerical policy of the C6 witness (the shape the
timestamp convenience rewrite produces). -/
def c6numericalPolicy : ImagePolicy :=
  ⟨"ts-policy", "app", "numerical", "", "^main-[a-f0-9]+-(?P<ts>[0-9]+)", "$ts", "asc"⟩

/-- Auxiliary for claim C1: running the validation loop over
`pre ++ v :: post` where `v` is required and absent always fails, and
fails with `v`'s "required variable is missing" error as soon as every
variable before `v` passes its own check. -/
theorem validateVars_required_missing (values : GoMap) (pre post : List Variable)
    (v : Variable) (hreq : v.Required = true)
    (hlook : lookupGo values v.Name = none) :
    (∃ e, validateVars values (pre ++ v :: post) = Except.error e) ∧
    ((∀ u ∈ pre, checkVar values u = Except.ok ()) →
      validateVars values (pre ++ v :: post) =
        Except.error ⟨v.Name, "required variable is missing"⟩) := by
  induction pre with
  | nil =>
    have hv : checkVar values v = Except.error ⟨v.Name, "required variable is missing"⟩ := by
      unfold checkVar
      rw [if_pos]
      exact ⟨hreq, by rw [hlook]; rfl⟩
    constructor
    · exact ⟨⟨v.Name, "required variable is missing"⟩, by simp [validateVars, hv]⟩
    · intro _
      simp [validateVars, hv]
  | cons u pre ih =>
    cases hcu : checkVar values u with
    | error e =>
      constructor
      · exact ⟨e, by simp [validateVars, hcu]⟩
      · intro hall
        have : checkVar values u = Except.ok () := hall u (by simp)
        rw [this] at hcu
        exact absurd hcu (by simp)
    | ok a =>
      constructor
      · obtain ⟨e, he⟩ := ih.1
        exact ⟨e, by simp [validateVars, hcu, he]⟩
      · intro hall
        have hrest := ih.2 (fun w hw => hall w (by simp [hw]))
        simp [validateVars, hcu, hrest]

/-- Claim C1 (amended): if some declared variable `v` is required and
its key is absent from the values, `BasePlugin.Validate` always returns
a ValidationError; the returned error is `v`'s own
"required variable is missing" error whenever every variable declared
before `v` passes its check (the Go loop returns the first error in
declaration order, so an earlier invalid variable preempts `v`'s
error). -/
theorem C1_required_missing (p : BasePlugin) (values : GoMap)
    (pre post : List Variable) (v : Variable)
    (hsplit : p.variables' = pre ++ v :: post)
    (hreq : v.Required = true)
    (hlook : lookupGo values v.Name = none) :
    (∃ e, p.Validate values = Except.error e) ∧
    ((∀ u ∈ pre, checkVar values u = Except.ok ()) →
      p.Validate values = Except.error ⟨v.Name, "required variable is missing"⟩) := by
  unfold BasePlugin.Validate
  rw [hsplit]
  exact validateVars_required_missing values pre post v hreq hlook

/-- Claim C1 counterexample: "v" is declared, required and absent, yet
Validate does not return the ValidationError naming "v" that the claim
promises — it returns the type error of the earlier variable "other"
instead, so the error named is not independent of the other variables'
validity. -/
theorem C1_counterexample :
    c1varV ∈ c1plugin.variables' ∧
    c1varV.Required = true ∧
    lookupGo c1values c1varV.Name = none ∧
    c1plugin.Validate c1values =
      Except.error ⟨"other", "value must be a string"⟩ ∧
    c1plugin.Validate c1values ≠
      Except.error ⟨c1varV.Name, "required variable is missing"⟩ := by
  decide

/-- Witness for the amended claim C1 at a concrete input: with no
values submitted, the first variable passes its check and Validate
reports exactly the required-missing error for "v". -/
theorem C1_witness :
    c1plugin.Validate [] =
      Except.error ⟨"v", "required variable is missing"⟩ :=
  (C1_required_missing c1plugin [] [c1varOther] [] c1varV rfl rfl rfl).2
    (by decide)

/-- Claim C2: for a select-typed variable and a non-nil submitted
value, validateVariableType succeeds exactly when the value equals some
option's `Value`; otherwise it fails with "value is not one of the
allowed options" naming the variable; and relabelling the options in
any way that preserves their values does not change the outcome. -/
theorem C2_select_value_membership (v : Variable) (val : GoValue)
    (htype : v.Type' = VariableTypeSelect) (_hnn : val ≠ GoValue.nullv) :
    ((validateVariableType v val = Except.ok ()) ↔
      ∃ o ∈ v.Options, o.Value = val) ∧
    ((¬ ∃ o ∈ v.Options, o.Value = val) →
      validateVariableType v val =
        Except.error ⟨v.Name, "value is not one of the allowed options"⟩) ∧
    (∀ opts' : List SelectOption,
      opts'.map SelectOption.Value = v.Options.map SelectOption.Value →
      validateVariableType { v with Options := opts' } val =
        validateVariableType v val) := by
  have hnotbool : ¬ (v.Type' = VariableTypeBool ∨ v.Type' = VariableTypeCheckbox) := by
    rw [htype]; decide
  have hnottext : ¬ v.Type' = VariableTypeText := by
    rw [htype]; decide
  have hany : ∀ opts : List SelectOption,
      (opts.any fun o => o.Value = val) =
        ((opts.map SelectOption.Value).any fun x => x = val) := by
    intro opts
    induction opts with
    | nil => rfl
    | cons o t ih => simp [List.any_cons, List.map_cons, ih]
  refine ⟨?_, ?_, ?_⟩
  · unfold validateVariableType
    rw [if_neg hnotbool, if_neg hnottext, if_pos htype]
    by_cases hmem : ∃ o ∈ v.Options, o.Value = val
    · have : (v.Options.any fun o => o.Value = val) = true := by
        simp only [List.any_eq_true, decide_eq_true_eq]
        obtain ⟨o, ho, hv⟩ := hmem
        exact ⟨o, ho, hv⟩
      simp [this, hmem]
    · have : (v.Options.any fun o => o.Value = val) = false := by
        simp only [List.any_eq_false, decide_eq_true_eq]
        intro o ho hv
        exact hmem ⟨o, ho, hv⟩
      simp [this, hmem]
  · intro hmem
    unfold validateVariableType
    rw [if_neg hnotbool, if_neg hnottext, if_pos htype]
    have : (v.Options.any fun o => o.Value = val) = false := by
      simp only [List.any_eq_false, decide_eq_true_eq]
      intro o ho hv
      exact hmem ⟨o, ho, hv⟩
    simp [this]
  · intro opts' hvals
    simp only [validateVariableType]
    rw [hany opts', hvals, hany v.Options]

/-- Witness for claim C2 at concrete inputs: the option value
"ClusterSecretStore" is accepted, while the option label
"Cluster Secret Store" (not a value) is rejected with the expected
error. -/
theorem C2_witness :
    validateVariableType c2var (GoValue.str "ClusterSecretStore") = Except.ok () ∧
    validateVariableType c2var (GoValue.str "Cluster Secret Store") =
      Except.error ⟨"secret_store_type", "value is not one of the allowed options"⟩ := by
  constructor
  · exact ((C2_select_value_membership c2var (GoValue.str "ClusterSecretStore")
      (by decide) (by decide)).1).mpr (by decide)
  · exact (C2_select_value_membership c2var (GoValue.str "Cluster Secret Store")
      (by decide) (by decide)).2.1 (by decide)

/-- Claim C10: a key that is present but bound to the nil interface
value short-circuits the per-variable check — the variable is not
reported missing (it exists) and no type or options check runs (the
check is guarded by `value != nil`); consequently a whole values map
binding every declared variable to nil always validates. -/
theorem C10_nil_value_skips_checks :
    (∀ (values : GoMap) (v : Variable),
      lookupGo values v.Name = some GoValue.nullv →
      checkVar values v = Except.ok ()) ∧
    (∀ (p : BasePlugin) (values : GoMap),
      (∀ v ∈ p.variables', lookupGo values v.Name = some GoValue.nullv) →
      p.Validate values = Except.ok ()) := by
  have part1 : ∀ (values : GoMap) (v : Variable),
      lookupGo values v.Name = some GoValue.nullv →
      checkVar values v = Except.ok () := by
    intro values v h
    unfold checkVar
    rw [if_neg]
    · rw [h]
      simp
    · rw [h]
      simp
  refine ⟨part1, ?_⟩
  intro p values h
  unfold BasePlugin.Validate
  have aux : ∀ (vars : List Variable),
      (∀ v ∈ vars, lookupGo values v.Name = some GoValue.nullv) →
      validateVars values vars = Except.ok () := by
    intro vars
    induction vars with
    | nil => intro _; rfl
    | cons v rest ih =>
      intro hall
      have hv : checkVar values v = Except.ok () :=
        part1 values v (hall v (by simp))
      have hrest := ih (fun w hw => hall w (by simp [hw]))
      simp [validateVars, hv, hrest]
  exact aux p.variables' h

/-- Witness for claim C10 at a concrete input: a required select
variable bound to nil passes Validate although nil equals no option
value. -/
theorem C10_witness :
    c10plugin.Validate c10values = Except.ok () ∧
    (∀ o ∈ c10var.Options, o.Value ≠ GoValue.nullv) :=
  ⟨C10_nil_value_skips_checks.2 c10plugin c10values (by decide), by decide⟩

/-- Claim C4: Get on an unregistered name returns nothing (no default
plugin); Register rejects a nil plugin, an empty-name plugin and an
already-registered name, and in each failing case returns the registry
unchanged.  (The duplicate case assumes a non-empty name, since the
empty-name check runs first.) -/
theorem C4_registry_get_and_register :
    (∀ (r : Registry) (name : String),
      r.Exists name = false → r.Get name = none) ∧
    (∀ r : Registry,
      Registry.Register r none = (Except.error "cannot register nil plugin", r)) ∧
    (∀ (r : Registry) (p : BasePlugin), p.name = "" →
      Registry.Register r (some p) = (Except.error "plugin name cannot be empty", r)) ∧
    (∀ (r : Registry) (p : BasePlugin), p.name ≠ "" → r.Exists p.name = true →
      Registry.Register r (some p) =
        (Except.error ("plugin with name \x27" ++ p.name ++ "\x27 is already registered"), r)) := by
  refine ⟨?_, ?_, ?_, ?_⟩
  · intro r name h
    unfold Registry.Exists at h
    unfold Registry.Get
    cases hl : lookupPlugin r.plugins name with
    | none => rfl
    | some p => rw [hl] at h; simp at h
  · intro r
    rfl
  · intro r p h
    simp [Registry.Register, h]
  · intro r p hname hdup
    unfold Registry.Exists at hdup
    simp [Registry.Register, hname, hdup]

/-- Witness for claim C4 at concrete inputs: on the freshly built
registry, Get of an unregistered name is none, and registering nil, an
empty name, or the already-present built-in name each fail with the
registry unchanged. -/
theorem C4_witness :
    NewRegistry.Get "non-existent" = none ∧
    Registry.Register NewRegistry none =
      (Except.error "cannot register nil plugin", NewRegistry) ∧
    Registry.Register NewRegistry (some c4emptyPlugin) =
      (Except.error "plugin name cannot be empty", NewRegistry) ∧
    Registry.Register NewRegistry (some NewExternalSecretPlugin) =
      (Except.error "plugin with name \x27externalsecret\x27 is already registered",
        NewRegistry) :=
  ⟨C4_registry_get_and_register.1 NewRegistry "non-existent" rfl,
   C4_registry_get_and_register.2.1 NewRegistry,
   C4_registry_get_and_register.2.2.1 NewRegistry c4emptyPlugin rfl,
   C4_registry_get_and_register.2.2.2 NewRegistry NewExternalSecretPlugin
     (by decide) rfl⟩

/-- Claim C8 (code bug evaluation): after NewRegistry() the registry
holds exactly the ExternalSecret plugin; Get("imageupdate") finds
nothing, contradicting the claim (and the repository's own tests
TestNewRegistry and TestRegistry_BuiltinPlugins, which assert that
"imageupdate" is registered by construction) — registerBuiltinPlugins
never registers the ImageUpdate plugin. -/
theorem C8_builtin_registration_bug :
    NewRegistry.Get "imageupdate" = none ∧
    NewRegistry.Exists "imageupdate" = false ∧
    NewRegistry.Get "externalsecret" = some NewExternalSecretPlugin ∧
    NewRegistry.Count = 1 :=
  ⟨rfl, rfl, rfl, rfl⟩

/-- Claim C3 (amended): whenever BasePlugin.GenerateFile succeeds, the
single file it writes holds the rendered template output with exactly
one newline appended.  Hence the file ends with exactly one trailing
newline precisely when the rendered output does not itself end with a
newline (which is the case for every template shipped in this
repository); when the rendered output already ends with a newline the
file ends with two, not one. -/
theorem C3_newline_append (p : BasePlugin) (values : GoMap)
    (appDir ns : String) (fs : FS) (rel out : String)
    (hrel : renderGoTemplate p.filePath (templateData values ns) = some rel)
    (hout : renderGoTemplate p.template (templateData values ns) = some out) :
    p.GenerateFile values appDir ns fs =
      some (setFile fs (joinPath appDir rel) (out ++ "\n")) ∧
    (out.data.getLast? ≠ some '\n' → endsWithExactlyOneNL (out ++ "\n")) ∧
    (out.data.getLast? = some '\n' → ¬ endsWithExactlyOneNL (out ++ "\n")) := by
  have hdata : (out ++ "\n").data = out.data ++ ['\n'] := by
    rw [String.data_append]
  refine ⟨?_, ?_, ?_⟩
  · unfold BasePlugin.GenerateFile
    rw [hrel, hout]
  · intro h
    unfold endsWithExactlyOneNL
    rw [hdata, List.getLast?_concat, List.dropLast_concat]
    exact ⟨rfl, h⟩
  · intro h hone
    unfold endsWithExactlyOneNL at hone
    rw [hdata, List.dropLast_concat] at hone
    exact hone.2 h

/-- Claim C3 counterexample: with the action-free template
"test: value\n" (whose rendered output already ends with a newline),
generation succeeds but the written file is "test: value\n\n", which
does not end with exactly one trailing newline — GenerateFile appends
its newline unconditionally. -/
theorem C3_counterexample :
    (BasePlugin.GenerateFile c3plugin [] "out" "default" emptyFS).isSome = true ∧
    c3written = some "test: value\n\n" ∧
    ¬ endsWithExactlyOneNL "test: value\n\n" := by
  refine ⟨rfl, rfl, by decide⟩

/-- Witness for the amended claim C3 at a concrete input: a template
whose rendered output has no trailing newline produces a file ending
with exactly one. -/
theorem C3_witness :
    BasePlugin.GenerateFile c3okPlugin [] "out" "default" emptyFS =
      some (setFile emptyFS (joinPath "out" "test.yaml") ("test: value" ++ "\n")) ∧
    endsWithExactlyOneNL ("test: value" ++ "\n") :=
  ⟨(C3_newline_append c3okPlugin [] "out" "default" emptyFS
      "test.yaml" "test: value" rfl rfl).1,
   (C3_newline_append c3okPlugin [] "out" "default" emptyFS
      "test.yaml" "test: value" rfl rfl).2.1 (by decide)⟩

set_option maxRecDepth 16384 in
/-- Claim C7: in the ExternalSecret end-to-end scenario (name
api-secret, ClusterSecretStore vault-backend, key datadog/api-key,
target datadog-secret, refresh 60m, namespace monitoring), Validate
succeeds, and GenerateFile writes exactly one file, at
`root/dependencies/external-secret-datadog-secret.yaml`, whose content
contains `kind: ExternalSecret`, `namespace: monitoring`,
`name: datadog-secret` under the target section, and
`refreshInterval: 60m`. -/
theorem C7_external_secret_end_to_end :
    NewExternalSecretPlugin.Validate c7values = Except.ok () ∧
    (∀ (root : String) (fs : FS),
      NewExternalSecretPlugin.GenerateFile c7values root "monitoring" fs =
        some (setFile fs
          (joinPath root "dependencies/external-secret-datadog-secret.yaml")
          c7content)) ∧
    occursStr "kind: ExternalSecret" c7content ∧
    occursStr "namespace: monitoring" c7content ∧
    occursStr "  target:\n    creationPolicy: Owner\n    name: datadog-secret" c7content ∧
    occursStr "refreshInterval: 60m" c7content := by
  refine ⟨by decide, ?_, by decide, by decide, by decide, by decide⟩
  intro root fs
  rfl

/-- splitNL never returns the empty list of lines. -/
theorem splitNL_ne_nil (cs : List Char) : splitNL cs ≠ [] := by
  cases cs with
  | nil => simp [splitNL]
  | cons c cs =>
    by_cases h : c = '\n' <;> cases hs : splitNL cs <;> simp [splitNL, h, hs]

/-- splitNL of a newline-free list is that single line. -/
theorem splitNL_nlfree (a : List Char) (h : '\n' ∉ a) : splitNL a = [a] := by
  induction a with
  | nil => rfl
  | cons c cs ih =>
    have hc : ¬ c = '\n' := fun e => h (e ▸ List.mem_cons_self c cs)
    have hcs : '\n' ∉ cs := fun m => h (List.mem_cons_of_mem _ m)
    simp [splitNL, hc, ih hcs]

/-- splitNL after a leading newline starts with an empty line. -/
theorem splitNL_cons_newline (x : List Char) :
    splitNL ('\n' :: x) = [] :: splitNL x := by
  simp [splitNL]

/-- Prepending a newline-free segment extends the first line. -/
theorem splitNL_nlfree_append (a b : List Char) (h : '\n' ∉ a)
    (m : List Char) (ms : List (List Char)) (hb : splitNL b = m :: ms) :
    splitNL (a ++ b) = (a ++ m) :: ms := by
  induction a with
  | nil => simpa using hb
  | cons c cs ih =>
    have hc : ¬ c = '\n' := fun e => h (e ▸ List.mem_cons_self c cs)
    have hcs : '\n' ∉ cs := fun m' => h (List.mem_cons_of_mem _ m')
    simp [splitNL, hc, ih hcs, List.cons_append]

/-- splitNL inverts unlines on nonempty lists of newline-free lines. -/
theorem splitNL_unlines (L : List (List Char)) (h1 : L ≠ [])
    (h2 : ∀ l ∈ L, '\n' ∉ l) : splitNL (unlines L) = L := by
  induction L with
  | nil => exact absurd rfl h1
  | cons l ls ih =>
    cases ls with
    | nil => exact splitNL_nlfree l (h2 l (by simp))
    | cons l2 ls2 =>
      have hrec := ih (by simp) (fun x hx => h2 x (List.mem_cons_of_mem _ hx))
      rw [show unlines (l :: l2 :: ls2) = l ++ '\n' :: unlines (l2 :: ls2) from rfl,
        splitNL_nlfree_append l ('\n' :: unlines (l2 :: ls2)) (h2 l (by simp))
          [] (splitNL (unlines (l2 :: ls2))) (splitNL_cons_newline _)]
      simp [hrec]

/-- splitNL of a rendered segment followed by a newline and further
text: the segment's lines, then the lines of the rest. -/
theorem splitNL_unlines_append (L : List (List Char)) (z : List Char)
    (h1 : L ≠ []) (h2 : ∀ l ∈ L, '\n' ∉ l) :
    splitNL (unlines L ++ '\n' :: z) = L ++ splitNL z := by
  induction L with
  | nil => exact absurd rfl h1
  | cons l ls ih =>
    cases ls with
    | nil =>
      obtain ⟨m, ms, hz⟩ : ∃ m ms, splitNL z = m :: ms := by
        cases hz : splitNL z
        · exact absurd hz (splitNL_ne_nil z)
        · exact ⟨_, _, rfl⟩
      rw [show unlines [l] = l from rfl,
        splitNL_nlfree_append l ('\n' :: z) (h2 l (by simp))
          [] (splitNL z) (splitNL_cons_newline z)]
      simp [hz]
    | cons l2 ls2 =>
      have hrec := ih (by simp) (fun x hx => h2 x (List.mem_cons_of_mem _ hx))
      rw [show unlines (l :: l2 :: ls2) ++ '\n' :: z =
            l ++ '\n' :: (unlines (l2 :: ls2) ++ '\n' :: z) from by
          rw [show unlines (l :: l2 :: ls2) = l ++ '\n' :: unlines (l2 :: ls2) from rfl,
            List.append_assoc]
          rfl,
        splitNL_nlfree_append l ('\n' :: (unlines (l2 :: ls2) ++ '\n' :: z))
          (h2 l (by simp)) [] (splitNL (unlines (l2 :: ls2) ++ '\n' :: z))
          (splitNL_cons_newline _)]
      simp [hrec]

/-- Newline-freeness is preserved by list concatenation. -/
theorem nl_notin_append {A B : List Char} (hA : '\n' ∉ A) (hB : '\n' ∉ B) :
    '\n' ∉ A ++ B := by
  intro h
  rcases List.mem_append.mp h with h | h
  exacts [hA h, hB h]

/-- Two lists differing at some index stay different after extending
the second with any tail. -/
theorem ne_of_get_ne_lit (B A N : List Char) (i : Nat)
    (hiB : i < B.length) (hiA : i < A.length)
    (hne : B.get ⟨i, hiB⟩ ≠ A.get ⟨i, hiA⟩) : B ≠ A ++ N := by
  intro h
  apply hne
  have hiAB : i < (A ++ N).length := by
    rw [List.length_append]
    omega
  have e0 : B.get? i = (A ++ N).get? i := by rw [h]
  rw [List.get?_eq_get hiB, List.get?_eq_get hiAB] at e0
  have e1 : B.get ⟨i, hiB⟩ = (A ++ N).get ⟨i, hiAB⟩ := Option.some.inj e0
  rw [e1]
  exact List.get_append i hiA

/-- Character data of a rendered repository block: a newline followed
by its lines. -/
theorem repoBlock_data (r : ImageRepository) :
    (renderRepoBlock r).data = '\n' :: unlines (repoBlockLines r) := by
  by_cases h : r.SecretRef = "" <;>
    simp [renderRepoBlock, repoBlockLines, h, unlines, String.data_append,
      List.append_assoc]

/-- Character data of a rendered policy block: a newline followed by
its lines. -/
theorem policyBlock_data (p : ImagePolicy) :
    (renderPolicyBlock p).data = '\n' :: unlines (policyBlockLines p) := by
  by_cases h1 : p.PolicyType = "semver"
  · simp [renderPolicyBlock, policyBlockLines, h1, unlines, String.data_append,
      List.append_assoc]
  · by_cases h2 : p.PolicyType = "numerical" <;>
      simp [renderPolicyBlock, policyBlockLines, h1, h2, unlines,
        String.data_append, List.append_assoc]

/-- The lines of a repository block are newline-free when the record's
fields are. -/
theorem repoBlockLines_nlfree (r : ImageRepository)
    (hN : '\n' ∉ r.Name.data) (hI : '\n' ∉ r.Image.data)
    (hV : '\n' ∉ r.Interval.data) (hS : '\n' ∉ r.SecretRef.data) :
    ∀ l ∈ repoBlockLines r, '\n' ∉ l := by
  intro l hl
  unfold repoBlockLines at hl
  by_cases h : r.SecretRef = ""
  · rw [if_neg (by simp [h]), List.append_nil] at hl
    simp only [List.mem_cons, List.not_mem_nil, or_false] at hl
    rcases hl with rfl | rfl | rfl | rfl | rfl | rfl | rfl | rfl
    · decide
    · decide
    · decide
    · decide
    · exact nl_notin_append (by decide) hN
    · decide
    · exact nl_notin_append (by decide) hI
    · exact nl_notin_append (by decide) hV
  · rw [if_pos h] at hl
    simp only [List.mem_append, List.mem_cons, List.not_mem_nil, or_false] at hl
    rcases hl with (rfl | rfl | rfl | rfl | rfl | rfl | rfl | rfl) | (rfl | rfl)
    · decide
    · decide
    · decide
    · decide
    · exact nl_notin_append (by decide) hN
    · decide
    · exact nl_notin_append (by decide) hI
    · exact nl_notin_append (by decide) hV
    · decide
    · exact nl_notin_append (by decide) hS

/-- The lines of a semver policy block are newline-free when the
fields it renders are. -/
theorem policyBlockLines_nlfree_semver (p : ImagePolicy)
    (h1 : p.PolicyType = "semver")
    (hN : '\n' ∉ p.Name.data) (hR : '\n' ∉ p.Repository.data)
    (hG : '\n' ∉ p.Range.data) :
    ∀ l ∈ policyBlockLines p, '\n' ∉ l := by
  intro l hl
  unfold policyBlockLines at hl
  rw [if_pos h1] at hl
  simp only [List.mem_append, List.mem_cons, List.not_mem_nil, or_false] at hl
  rcases hl with (rfl | rfl | rfl | rfl | rfl | rfl | rfl | rfl) | (rfl | rfl | rfl)
  · decide
  · decide
  · decide
  · decide
  · exact nl_notin_append (by decide) hN
  · decide
  · decide
  · exact nl_notin_append (by decide) hR
  · decide
  · decide
  · exact nl_notin_append (by decide) (nl_notin_append hG (by decide))

/-- The lines of a numerical policy block are newline-free when the
fields it renders are. -/
theorem policyBlockLines_nlfree_numerical (p : ImagePolicy)
    (h2 : p.PolicyType = "numerical")
    (hN : '\n' ∉ p.Name.data) (hR : '\n' ∉ p.Repository.data)
    (hP : '\n' ∉ p.Pattern.data) (hE : '\n' ∉ p.Extract.data)
    (hO : '\n' ∉ p.Order.data) :
    ∀ l ∈ policyBlockLines p, '\n' ∉ l := by
  intro l hl
  unfold policyBlockLines at hl
  rw [if_neg (by rw [h2]; decide), if_pos h2] at hl
  simp only [List.mem_append, List.mem_cons, List.not_mem_nil, or_false] at hl
  rcases hl with (rfl | rfl | rfl | rfl | rfl | rfl | rfl | rfl) |
    (rfl | rfl | rfl | rfl | rfl | rfl)
  · decide
  · decide
  · decide
  · decide
  · exact nl_notin_append (by decide) hN
  · decide
  · decide
  · exact nl_notin_append (by decide) hR
  · decide
  · exact nl_notin_append (by decide) (nl_notin_append hP (by decide))
  · exact nl_notin_append (by decide) (nl_notin_append hE (by decide))
  · decide
  · decide
  · exact nl_notin_append (by decide) hO

/-- repoBlockLines is never empty. -/
theorem repoBlockLines_ne_nil (r : ImageRepository) : repoBlockLines r ≠ [] := by
  unfold repoBlockLines
  by_cases h : r.SecretRef = "" <;> simp [h]

/-- policyBlockLines is never empty. -/
theorem policyBlockLines_ne_nil (p : ImagePolicy) : policyBlockLines p ≠ [] := by
  unfold policyBlockLines
  by_cases h1 : p.PolicyType = "semver"
  · simp [h1]
  · by_cases h2 : p.PolicyType = "numerical" <;> simp [h1, h2]

/-- Lines of one rendered repository block. -/
theorem renderRepoBlock_lines (r : ImageRepository)
    (hN : '\n' ∉ r.Name.data) (hI : '\n' ∉ r.Image.data)
    (hV : '\n' ∉ r.Interval.data) (hS : '\n' ∉ r.SecretRef.data) :
    splitNL (renderRepoBlock r).data = [] :: repoBlockLines r := by
  rw [repoBlock_data, splitNL_cons_newline,
    splitNL_unlines (repoBlockLines r) (repoBlockLines_ne_nil r)
      (repoBlockLines_nlfree r hN hI hV hS)]

/-- Lines of one rendered semver policy block. -/
theorem renderPolicyBlock_lines_semver (p : ImagePolicy)
    (h1 : p.PolicyType = "semver")
    (hN : '\n' ∉ p.Name.data) (hR : '\n' ∉ p.Repository.data)
    (hG : '\n' ∉ p.Range.data) :
    splitNL (renderPolicyBlock p).data = [] :: policyBlockLines p := by
  rw [policyBlock_data, splitNL_cons_newline,
    splitNL_unlines (policyBlockLines p) (policyBlockLines_ne_nil p)
      (policyBlockLines_nlfree_semver p h1 hN hR hG)]

/-- Lines of one rendered numerical policy block. -/
theorem renderPolicyBlock_lines_numerical (p : ImagePolicy)
    (h2 : p.PolicyType = "numerical")
    (hN : '\n' ∉ p.Name.data) (hR : '\n' ∉ p.Repository.data)
    (hP : '\n' ∉ p.Pattern.data) (hE : '\n' ∉ p.Extract.data)
    (hO : '\n' ∉ p.Order.data) :
    splitNL (renderPolicyBlock p).data = [] :: policyBlockLines p := by
  rw [policyBlock_data, splitNL_cons_newline,
    splitNL_unlines (policyBlockLines p) (policyBlockLines_ne_nil p)
      (policyBlockLines_nlfree_numerical p h2 hN hR hP hE hO)]

/-- Lines of the whole written image-repository.yaml (rendered stream
plus the final appended newline): a leading empty line, then each
record's lines in order, then a final empty line. -/
theorem splitNL_repoYaml (repos : List ImageRepository)
    (hnl : ∀ r ∈ repos, '\n' ∉ r.Name.data ∧ '\n' ∉ r.Image.data ∧
      '\n' ∉ r.Interval.data ∧ '\n' ∉ r.SecretRef.data) :
    splitNL ((renderImageRepositoryYaml repos).data ++ ['\n']) =
      [] :: ((repos.map repoBlockLines).join ++ [[]]) := by
  induction repos with
  | nil => rfl
  | cons r rest ih =>
    obtain ⟨hN, hI, hV, hS⟩ := hnl r (by simp)
    have hrest := ih (fun x hx => hnl x (List.mem_cons_of_mem _ hx))
    have hdata : (renderImageRepositoryYaml (r :: rest)).data ++ ['\n'] =
        '\n' :: (unlines (repoBlockLines r) ++
          ((renderImageRepositoryYaml rest).data ++ ['\n'])) := by
      rw [show renderImageRepositoryYaml (r :: rest) =
            renderRepoBlock r ++ renderImageRepositoryYaml rest from rfl,
        String.data_append, repoBlock_data]
      simp [List.cons_append, List.append_assoc]
    rw [hdata, splitNL_cons_newline]
    congr 1
    cases rest with
    | nil =>
      rw [show (renderImageRepositoryYaml ([] : List ImageRepository)).data ++ ['\n'] =
            '\n' :: ([] : List Char) from rfl,
        splitNL_unlines_append (repoBlockLines r) [] (repoBlockLines_ne_nil r)
          (repoBlockLines_nlfree r hN hI hV hS)]
      simp [splitNL]
    | cons r2 rest2 =>
      have hdata2 : (renderImageRepositoryYaml (r2 :: rest2)).data ++ ['\n'] =
          '\n' :: (unlines (repoBlockLines r2) ++
            ((renderImageRepositoryYaml rest2).data ++ ['\n'])) := by
        rw [show renderImageRepositoryYaml (r2 :: rest2) =
              renderRepoBlock r2 ++ renderImageRepositoryYaml rest2 from rfl,
          String.data_append, repoBlock_data]
        simp [List.cons_append, List.append_assoc]
      rw [hdata2, splitNL_unlines_append (repoBlockLines r) _
        (repoBlockLines_ne_nil r) (repoBlockLines_nlfree r hN hI hV hS)]
      rw [hdata2, splitNL_cons_newline] at hrest
      have hX : splitNL (unlines (repoBlockLines r2) ++
          ((renderImageRepositoryYaml rest2).data ++ ['\n'])) =
          ((r2 :: rest2).map repoBlockLines).join ++ [[]] := by
        injection hrest
      rw [hX]
      simp [List.append_assoc]

/-- Each rendered repository block contributes exactly one
`kind: ImageRepository` line. -/
theorem count_repoBlockLines (r : ImageRepository) :
    (repoBlockLines r).count "kind: ImageRepository".data = 1 := by
  have h1 : ("kind: ImageRepository".data ==
      ("  name: ".data ++ r.Name.data)) = false :=
    beq_eq_false_iff_ne.mpr
      (ne_of_get_ne_lit _ _ _ 0 (by decide) (by decide) (by decide))
  have h2 : ("kind: ImageRepository".data ==
      ("  image: ".data ++ r.Image.data)) = false :=
    beq_eq_false_iff_ne.mpr
      (ne_of_get_ne_lit _ _ _ 0 (by decide) (by decide) (by decide))
  have h3 : ("kind: ImageRepository".data ==
      ("  interval: ".data ++ r.Interval.data)) = false :=
    beq_eq_false_iff_ne.mpr
      (ne_of_get_ne_lit _ _ _ 0 (by decide) (by decide) (by decide))
  have h4 : ("kind: ImageRepository".data ==
      ("    name: ".data ++ r.SecretRef.data)) = false :=
    beq_eq_false_iff_ne.mpr
      (ne_of_get_ne_lit _ _ _ 0 (by decide) (by decide) (by decide))
  unfold repoBlockLines
  by_cases h : r.SecretRef = ""
  · rw [if_neg (by simp [h]), List.append_nil]
    simp [List.count_cons, h1, h2, h3]
  · rw [if_pos h]
    simp [List.count_cons, List.count_append, h1, h2, h3, h4]

/-- The written image-repository.yaml contains exactly one
`kind: ImageRepository` line per input record. -/
theorem count_kind_repoYaml (repos : List ImageRepository)
    (hnl : ∀ r ∈ repos, '\n' ∉ r.Name.data ∧ '\n' ∉ r.Image.data ∧
      '\n' ∉ r.Interval.data ∧ '\n' ∉ r.SecretRef.data) :
    (splitNL (renderImageRepositoryYaml repos ++ "\n").data).count
      "kind: ImageRepository".data = repos.length := by
  have hd : (renderImageRepositoryYaml repos ++ "\n").data =
      (renderImageRepositoryYaml repos).data ++ ['\n'] := by
    rw [String.data_append]
  rw [hd, splitNL_repoYaml repos hnl]
  have hjoin : ∀ rs : List ImageRepository,
      ((rs.map repoBlockLines).join).count "kind: ImageRepository".data =
        rs.length := by
    intro rs
    induction rs with
    | nil => rfl
    | cons x xs ih =>
      rw [show ((x :: xs).map repoBlockLines).join =
            repoBlockLines x ++ (xs.map repoBlockLines).join from rfl,
        List.count_append, count_repoBlockLines x, ih, List.length_cons]
      omega
  rw [List.count_cons, List.count_append, List.count_cons, List.count_nil,
    hjoin repos]
  simp

/-- Repository records whose name, image and interval are non-empty
all pass the per-record validation, from any start index. -/
theorem validateReposFrom_ok (i : Nat) (rs : List ImageRepository)
    (h : ∀ r ∈ rs, r.Name ≠ "" ∧ r.Image ≠ "" ∧ r.Interval ≠ "") :
    validateReposFrom i rs = Except.ok () := by
  induction rs generalizing i with
  | nil => rfl
  | cons r rest ih =>
    obtain ⟨h1, h2, h3⟩ := h r (by simp)
    simp [validateReposFrom, validateSingleRepository, h1, h2, h3,
      ih (i + 1) (fun x hx => h x (List.mem_cons_of_mem _ hx))]

/-- Joining distinct file names under the same directory yields
distinct paths. -/
theorem joinPath_ne (dir f1 f2 : String) (h : f1 ≠ f2) :
    joinPath dir f1 ≠ joinPath dir f2 := by
  intro he
  apply h
  have hd := congrArg String.data he
  rw [joinPath, joinPath, String.data_append, String.data_append] at hd
  exact String.ext (List.append_cancel_left hd)

/-- Claim C5: serializing N ImageRepository records with non-empty
name, image and interval, feeding them through the imageupdate
Validate and GenerateFile, passes validation and writes an
image-repository.yaml that is exactly the concatenation of the N
rendered blocks (plus the final appended newline), with exactly one
`kind: ImageRepository` line per record; each rendered block carries
the record's name, image and interval verbatim as its own lines, a
non-empty secretRef produces the nested secretRef block naming it, and
an empty secretRef produces no secretRef line at all.  Record fields
are assumed newline-free (they are rendered as single YAML scalar
lines). -/
theorem C5_imageupdate_round_trip (repos : List ImageRepository) (an : String)
    (hfields : ∀ r ∈ repos, r.Name ≠ "" ∧ r.Image ≠ "" ∧ r.Interval ≠ "")
    (hnl : ∀ r ∈ repos, '\n' ∉ r.Name.data ∧ '\n' ∉ r.Image.data ∧
      '\n' ∉ r.Interval.data ∧ '\n' ∉ r.SecretRef.data) :
    ImageUpdatePlugin.Validate (c5values repos an) = Except.ok () ∧
    (∀ (appDir ns : String) (fs : FS),
      fileWritten (ImageUpdatePlugin.GenerateFile (c5values repos an) appDir ns fs)
        (joinPath appDir "image-repository.yaml") =
      some (renderImageRepositoryYaml repos ++ "\n")) ∧
    (splitNL (renderImageRepositoryYaml repos ++ "\n").data).count
      "kind: ImageRepository".data = repos.length ∧
    (∀ r ∈ repos,
      hasLine (renderRepoBlock r) ("  name: " ++ r.Name) ∧
      hasLine (renderRepoBlock r) ("  image: " ++ r.Image) ∧
      hasLine (renderRepoBlock r) ("  interval: " ++ r.Interval) ∧
      (r.SecretRef ≠ "" →
        hasLine (renderRepoBlock r) "  secretRef:" ∧
        hasLine (renderRepoBlock r) ("    name: " ++ r.SecretRef)) ∧
      (r.SecretRef = "" → ¬ hasLine (renderRepoBlock r) "  secretRef:")) := by
  refine ⟨?_, ?_, count_kind_repoYaml repos hnl, ?_⟩
  · have h1 : validateVars (c5values repos an) imageUpdateVariables =
        Except.ok () := rfl
    have h2 : ImageUpdatePlugin.validateImageRepositories (c5values repos an) =
        validateReposFrom 0 repos := rfl
    have h3 : ImageUpdatePlugin.validateImagePolicies (c5values repos an) =
        Except.ok () := rfl
    simp [ImageUpdatePlugin.Validate, h1, h2, h3,
      validateReposFrom_ok 0 repos hfields]
  · intro appDir ns fs
    have h2 : decodeRepoField (lookupGo (c5values repos an) "image_repositories") =
        some repos := rfl
    have h3 : decodePolicyField (lookupGo (c5values repos an) "image_policies") =
        some [] := rfl
    simp only [ImageUpdatePlugin.GenerateFile, h2, h3, fileWritten, setFile]
    rw [if_neg (joinPath_ne appDir _ _ (by decide)),
      if_neg (joinPath_ne appDir _ _ (by decide))]
    simp
  · intro r hr
    obtain ⟨hN, hI, hV, hS⟩ := hnl r hr
    have hlines := renderRepoBlock_lines r hN hI hV hS
    refine ⟨?_, ?_, ?_, ?_, ?_⟩
    · unfold hasLine
      rw [hlines, String.data_append]
      refine List.mem_cons_of_mem _ ?_
      unfold repoBlockLines
      exact List.mem_append_left _ (by simp)
    · unfold hasLine
      rw [hlines, String.data_append]
      refine List.mem_cons_of_mem _ ?_
      unfold repoBlockLines
      exact List.mem_append_left _ (by simp)
    · unfold hasLine
      rw [hlines, String.data_append]
      refine List.mem_cons_of_mem _ ?_
      unfold repoBlockLines
      exact List.mem_append_left _ (by simp)
    · intro hsec
      constructor
      · unfold hasLine
        rw [hlines]
        refine List.mem_cons_of_mem _ ?_
        unfold repoBlockLines
        rw [if_pos hsec]
        exact List.mem_append_right _ (by simp)
      · unfold hasLine
        rw [hlines, String.data_append]
        refine List.mem_cons_of_mem _ ?_
        unfold repoBlockLines
        rw [if_pos hsec]
        exact List.mem_append_right _ (by simp)
    · intro hsec
      unfold hasLine
      rw [hlines]
      intro hmem
      rcases List.mem_cons.mp hmem with h | h
      · exact absurd h (by decide)
      · unfold repoBlockLines at h
        rw [if_neg (by simp [hsec]), List.append_nil] at h
        simp only [List.mem_cons, List.not_mem_nil, or_false] at h
        rcases h with h | h | h | h | h | h | h | h
        · exact absurd h (by decide)
        · exact absurd h (by decide)
        · exact absurd h (by decide)
        · exact absurd h (by decide)
        · exact absurd h (ne_of_get_ne_lit _ _ _ 2 (by decide) (by decide) (by decide))
        · exact absurd h (by decide)
        · exact absurd h (ne_of_get_ne_lit _ _ _ 2 (by decide) (by decide) (by decide))
        · exact absurd h (ne_of_get_ne_lit _ _ _ 2 (by decide) (by decide) (by decide))

/-- Witness for claim C5 at a concrete input: two records (one with a
secretRef, one without) validate, generate the expected file, and
yield exactly two `kind: ImageRepository` lines. -/
theorem C5_witness :
    ImageUpdatePlugin.Validate (c5values c5demoRepos "auto") = Except.ok () ∧
    fileWritten (ImageUpdatePlugin.GenerateFile (c5values c5demoRepos "auto")
        "out" "flux-system" emptyFS)
      (joinPath "out" "image-repository.yaml") =
      some (renderImageRepositoryYaml c5demoRepos ++ "\n") ∧
    (splitNL (renderImageRepositoryYaml c5demoRepos ++ "\n").data).count
      "kind: ImageRepository".data = c5demoRepos.length :=
  ⟨(C5_imageupdate_round_trip c5demoRepos "auto" (by decide) (by decide)).1,
   (C5_imageupdate_round_trip c5demoRepos "auto" (by decide) (by decide)).2.1
     "out" "flux-system" emptyFS,
   (C5_imageupdate_round_trip c5demoRepos "auto" (by decide) (by decide)).2.2.1⟩

/-- Claim C6: the image-policy.yaml output of the imageupdate
GenerateFile is the per-policy rendered stream; a policy with
policyType "semver" and range "*" renders a block with the
`    semver:` and `      range: '*'` lines and no filterTags (and no
numerical) line, while a policy with policyType "numerical" renders
the `  filterTags:` section with its pattern and extract lines plus
the `    numerical:` block with its order line, and no semver line.
Record fields are assumed newline-free (they are rendered as single
YAML scalar lines). -/
theorem C6_policy_type_branching :
    (∀ (policies : List ImagePolicy) (values : GoMap) (appDir ns : String)
      (fs : FS) (repos : List ImageRepository),
      lookupGo values "image_repositories" = some (GoValue.repoList repos) →
      lookupGo values "image_policies" = some (GoValue.policyList policies) →
      fileWritten (ImageUpdatePlugin.GenerateFile values appDir ns fs)
        (joinPath appDir "image-policy.yaml") =
        some (renderImagePolicyYaml policies ++ "\n")) ∧
    (∀ p : ImagePolicy, p.PolicyType = "semver" → p.Range = "*" →
      '\n' ∉ p.Name.data → '\n' ∉ p.Repository.data →
      hasLine (renderPolicyBlock p) "    semver:" ∧
      hasLine (renderPolicyBlock p) "      range: \x27*\x27" ∧
      ¬ hasLine (renderPolicyBlock p) "  filterTags:" ∧
      ¬ hasLine (renderPolicyBlock p) "    numerical:") ∧
    (∀ p : ImagePolicy, p.PolicyType = "numerical" →
      '\n' ∉ p.Name.data → '\n' ∉ p.Repository.data → '\n' ∉ p.Pattern.data →
      '\n' ∉ p.Extract.data → '\n' ∉ p.Order.data →
      hasLine (renderPolicyBlock p) "  filterTags:" ∧
      hasLine (renderPolicyBlock p) ("    pattern: \x27" ++ (p.Pattern ++ "\x27")) ∧
      hasLine (renderPolicyBlock p) ("    extract: \x27" ++ (p.Extract ++ "\x27")) ∧
      hasLine (renderPolicyBlock p) "    numerical:" ∧
      hasLine (renderPolicyBlock p) ("      order: " ++ p.Order) ∧
      ¬ hasLine (renderPolicyBlock p) "    semver:") := by
  refine ⟨?_, ?_, ?_⟩
  · intro policies values appDir ns fs repos hrep hpol
    have h2 : decodeRepoField (lookupGo values "image_repositories") =
        some repos := by rw [hrep]; rfl
    have h3 : decodePolicyField (lookupGo values "image_policies") =
        some policies := by rw [hpol]; rfl
    simp only [ImageUpdatePlugin.GenerateFile, h2, h3, fileWritten, setFile]
    rw [if_neg (joinPath_ne appDir _ _ (by decide))]
    simp
  · intro p hsem hrange hN hR
    have hG : '\n' ∉ p.Range.data := by rw [hrange]; decide
    have hlines := renderPolicyBlock_lines_semver p hsem hN hR hG
    refine ⟨?_, ?_, ?_, ?_⟩
    · unfold hasLine
      rw [hlines]
      refine List.mem_cons_of_mem _ ?_
      unfold policyBlockLines
      rw [if_pos hsem]
      exact List.mem_append_right _ (by simp)
    · unfold hasLine
      rw [hlines]
      refine List.mem_cons_of_mem _ ?_
      unfold policyBlockLines
      rw [if_pos hsem, hrange]
      exact List.mem_append_right _ (by simp)
    · unfold hasLine
      rw [hlines]
      intro hmem
      rcases List.mem_cons.mp hmem with h | h
      · exact absurd h (by decide)
      · unfold policyBlockLines at h
        rw [if_pos hsem] at h
        simp only [List.mem_append, List.mem_cons, List.not_mem_nil, or_false] at h
        rcases h with (h | h | h | h | h | h | h | h) | (h | h | h)
        · exact absurd h (by decide)
        · exact absurd h (by decide)
        · exact absurd h (by decide)
        · exact absurd h (by decide)
        · exact absurd h (ne_of_get_ne_lit _ _ _ 2 (by decide) (by decide) (by decide))
        · exact absurd h (by decide)
        · exact absurd h (by decide)
        · exact absurd h (ne_of_get_ne_lit _ _ _ 2 (by decide) (by decide) (by decide))
        · exact absurd h (by decide)
        · exact absurd h (by decide)
        · exact absurd h (ne_of_get_ne_lit _ _ _ 2 (by decide) (by decide) (by decide))
    · unfold hasLine
      rw [hlines]
      intro hmem
      rcases List.mem_cons.mp hmem with h | h
      · exact absurd h (by decide)
      · unfold policyBlockLines at h
        rw [if_pos hsem] at h
        simp only [List.mem_append, List.mem_cons, List.not_mem_nil, or_false] at h
        rcases h with (h | h | h | h | h | h | h | h) | (h | h | h)
        · exact absurd h (by decide)
        · exact absurd h (by decide)
        · exact absurd h (by decide)
        · exact absurd h (by decide)
        · exact absurd h (ne_of_get_ne_lit _ _ _ 4 (by decide) (by decide) (by decide))
        · exact absurd h (by decide)
        · exact absurd h (by decide)
        · exact absurd h (ne_of_get_ne_lit _ _ _ 5 (by decide) (by decide) (by decide))
        · exact absurd h (by decide)
        · exact absurd h (by decide)
        · exact absurd h (ne_of_get_ne_lit _ _ _ 4 (by decide) (by decide) (by decide))
  · intro p hnum hN hR hP hE hO
    have hnotsem : ¬ p.PolicyType = "semver" := by rw [hnum]; decide
    have hlines := renderPolicyBlock_lines_numerical p hnum hN hR hP hE hO
    refine ⟨?_, ?_, ?_, ?_, ?_, ?_⟩
    · unfold hasLine
      rw [hlines]
      refine List.mem_cons_of_mem _ ?_
      unfold policyBlockLines
      rw [if_neg hnotsem, if_pos hnum]
      exact List.mem_append_right _ (by simp)
    · unfold hasLine
      rw [hlines, String.data_append, String.data_append]
      refine List.mem_cons_of_mem _ ?_
      unfold policyBlockLines
      rw [if_neg hnotsem, if_pos hnum]
      exact List.mem_append_right _ (by simp)
    · unfold hasLine
      rw [hlines, String.data_append, String.data_append]
      refine List.mem_cons_of_mem _ ?_
      unfold policyBlockLines
      rw [if_neg hnotsem, if_pos hnum]
      exact List.mem_append_right _ (by simp)
    · unfold hasLine
      rw [hlines]
      refine List.mem_cons_of_mem _ ?_
      unfold policyBlockLines
      rw [if_neg hnotsem, if_pos hnum]
      exact List.mem_append_right _ (by simp)
    · unfold hasLine
      rw [hlines, String.data_append]
      refine List.mem_cons_of_mem _ ?_
      unfold policyBlockLines
      rw [if_neg hnotsem, if_pos hnum]
      exact List.mem_append_right _ (by simp)
    · unfold hasLine
      rw [hlines]
      intro hmem
      rcases List.mem_cons.mp hmem with h | h
      · exact absurd h (by decide)
      · unfold policyBlockLines at h
        rw [if_neg hnotsem, if_pos hnum] at h
        simp only [List.mem_append, List.mem_cons, List.not_mem_nil, or_false] at h
        rcases h with (h | h | h | h | h | h | h | h) | (h | h | h | h | h | h)
        · exact absurd h (by decide)
        · exact absurd h (by decide)
        · exact absurd h (by decide)
        · exact absurd h (by decide)
        · exact absurd h (ne_of_get_ne_lit _ _ _ 4 (by decide) (by decide) (by decide))
        · exact absurd h (by decide)
        · exact absurd h (by decide)
        · exact absurd h (ne_of_get_ne_lit _ _ _ 4 (by decide) (by decide) (by decide))
        · exact absurd h (by decide)
        · exact absurd h (ne_of_get_ne_lit _ _ _ 4 (by decide) (by decide) (by decide))
        · exact absurd h (ne_of_get_ne_lit _ _ _ 4 (by decide) (by decide) (by decide))
        · exact absurd h (by decide)
        · exact absurd h (by decide)
        · exact absurd h (ne_of_get_ne_lit _ _ _ 4 (by decide) (by decide) (by decide))

/-- Witness for claim C6 at concrete inputs: a semver policy with
range "*" and a numerical policy with the canonical timestamp
pattern. -/
theorem C6_witness :
    (hasLine (renderPolicyBlock c6semverPolicy) "    semver:" ∧
      ¬ hasLine (renderPolicyBlock c6semverPolicy) "  filterTags:") ∧
    (hasLine (renderPolicyBlock c6numericalPolicy) "  filterTags:" ∧
      ¬ hasLine (renderPolicyBlock c6numericalPolicy) "    semver:") :=
  ⟨⟨(C6_policy_type_branching.2.1 c6semverPolicy rfl rfl (by decide) (by decide)).1,
    (C6_policy_type_branching.2.1 c6semverPolicy rfl rfl (by decide) (by decide)).2.2.1⟩,
   ⟨(C6_policy_type_branching.2.2 c6numericalPolicy rfl (by decide) (by decide)
      (by decide) (by decide) (by decide)).1,
    (C6_policy_type_branching.2.2 c6numericalPolicy rfl (by decide) (by decide)
      (by decide) (by decide) (by decide)).2.2.2.2.2⟩⟩

/-- Claim C9: generation is deterministic (a pure function of values,
output root and namespace in this embedding — the rendered content
depends on no clock, ordering or randomness) and idempotent: if a
first call succeeds producing file state fs', running the identical
call again on fs' succeeds and leaves fs' byte-identical, for both the
generic BasePlugin.GenerateFile and the imageupdate GenerateFile. -/
theorem C9_generate_idempotent :
    (∀ (p : BasePlugin) (values : GoMap) (appDir ns : String) (fs fs' : FS),
      p.GenerateFile values appDir ns fs = some fs' →
      p.GenerateFile values appDir ns fs' = some fs') ∧
    (∀ (values : GoMap) (appDir ns : String) (fs fs' : FS),
      ImageUpdatePlugin.GenerateFile values appDir ns fs = some fs' →
      ImageUpdatePlugin.GenerateFile values appDir ns fs' = some fs') := by
  have hset : ∀ (fs : FS) (k v : String),
      setFile (setFile fs k v) k v = setFile fs k v := by
    intro fs k v
    funext q
    unfold setFile
    by_cases h : q = k <;> simp [h]
  constructor
  · intro p values appDir ns fs fs' h
    unfold BasePlugin.GenerateFile at h ⊢
    cases h1 : renderGoTemplate p.filePath (templateData values ns) with
    | none => rw [h1] at h; exact Option.noConfusion h
    | some rel =>
      rw [h1] at h
      cases h2 : renderGoTemplate p.template (templateData values ns) with
      | none => rw [h2] at h; exact Option.noConfusion h
      | some out =>
        rw [h2] at h
        have hfs : fs' = setFile fs (joinPath appDir rel) (out ++ "\n") :=
          (Option.some.inj h).symm
        show some (setFile fs' (joinPath appDir rel) (out ++ "\n")) = some fs'
        rw [hfs, hset]
  · intro values appDir ns fs fs' h
    unfold ImageUpdatePlugin.GenerateFile at h ⊢
    cases h1 : decodeRepoField (lookupGo values "image_repositories") with
    | none => rw [h1] at h; exact Option.noConfusion h
    | some repos =>
      rw [h1] at h
      cases h2 : decodePolicyField (lookupGo values "image_policies") with
      | none => rw [h2] at h; exact Option.noConfusion h
      | some policies =>
        rw [h2] at h
        have hfs : fs' = setFile (setFile (setFile fs
            (joinPath appDir "image-repository.yaml")
            (renderImageRepositoryYaml repos ++ "\n"))
            (joinPath appDir "image-policy.yaml")
            (renderImagePolicyYaml policies ++ "\n"))
            (joinPath appDir "image-update-automation.yaml")
            (renderAutomationYaml (templateData values ns) ++ "\n") :=
          (Option.some.inj h).symm
        show some (setFile (setFile (setFile fs'
            (joinPath appDir "image-repository.yaml")
            (renderImageRepositoryYaml repos ++ "\n"))
            (joinPath appDir "image-policy.yaml")
            (renderImagePolicyYaml policies ++ "\n"))
            (joinPath appDir "image-update-automation.yaml")
            (renderAutomationYaml (templateData values ns) ++ "\n")) = some fs'
        rw [hfs]
        congr 1
        funext q
        simp only [setFile]
        by_cases ha : q = joinPath appDir "image-update-automation.yaml" <;>
          by_cases hb : q = joinPath appDir "image-policy.yaml" <;>
          by_cases hc : q = joinPath appDir "image-repository.yaml" <;>
          simp [ha, hb, hc]

/-- Witness for claim C9 at a concrete input: regenerating over the
previously generated file state reproduces it exactly. -/
theorem C9_witness :
    BasePlugin.GenerateFile c3okPlugin [] "out" "default"
      (setFile emptyFS (joinPath "out" "test.yaml") ("test: value" ++ "\n")) =
    some (setFile emptyFS (joinPath "out" "test.yaml") ("test: value" ++ "\n")) :=
  C9_generate_idempotent.1 c3okPlugin [] "out" "default" emptyFS
    (setFile emptyFS (joinPath "out" "test.yaml") ("test: value" ++ "\n")) rfl

end FluxPlugins
